import Mathlib

/-!
Verification development for the LaunchKit documentation repository.

The repository consists of a site-configuration file (`astro.config.mjs`)
declaring a sidebar navigation tree for an external documentation framework,
and a tree of Markdown/MDX content documents each carrying YAML front-matter
(`title`, `description`).  This file embeds that data model and the concrete
declared values, and proves the spec's properties about them.
-/

namespace LaunchKitDocs

/-- A sidebar navigation entry as written in `astro.config.mjs`: a record with
a mandatory `label` field, an optional `slug` field (present on leaf pages)
and an optional `items` field (present on groups, holding the ordered list of
child entries). -/
inductive NavNode : Type where
  | mk : String → Option String → Option (List NavNode) → NavNode

mutual

/-- Decidable equality of sidebar entries. -/
def NavNode.decEq : (a b : NavNode) → Decidable (a = b)
  | .mk l₁ s₁ i₁, .mk l₂ s₂ i₂ =>
    if hl : l₁ = l₂ then
      if hs : s₁ = s₂ then
        match NavNode.decEqOptList i₁ i₂ with
        | isTrue hi => isTrue (by rw [hl, hs, hi])
        | isFalse hi => isFalse (by intro h; cases h; exact hi rfl)
      else isFalse (by intro h; cases h; exact hs rfl)
    else isFalse (by intro h; cases h; exact hl rfl)

/-- Decidable equality of optional child lists. -/
def NavNode.decEqOptList : (a b : Option (List NavNode)) → Decidable (a = b)
  | none, none => isTrue rfl
  | none, some _ => isFalse (by intro h; cases h)
  | some _, none => isFalse (by intro h; cases h)
  | some xs, some ys =>
    match NavNode.decEqList xs ys with
    | isTrue h => isTrue (by rw [h])
    | isFalse h => isFalse (by intro hh; cases hh; exact h rfl)

/-- Decidable equality of child lists. -/
def NavNode.decEqList : (a b : List NavNode) → Decidable (a = b)
  | [], [] => isTrue rfl
  | [], _ :: _ => isFalse (by intro h; cases h)
  | _ :: _, [] => isFalse (by intro h; cases h)
  | x :: xs, y :: ys =>
    match NavNode.decEq x y, NavNode.decEqList xs ys with
    | isTrue h₁, isTrue h₂ => isTrue (by rw [h₁, h₂])
    | isFalse h₁, _ => isFalse (by intro h; cases h; exact h₁ rfl)
    | isTrue _, isFalse h₂ => isFalse (by intro h; cases h; exact h₂ rfl)

end

instance : DecidableEq NavNode := NavNode.decEq

/-- The `label` field of a sidebar entry. -/
def NavNode.label : NavNode → String
  | .mk l _ _ => l

/-- The optional `slug` field of a sidebar entry. -/
def NavNode.slug : NavNode → Option String
  | .mk _ s _ => s

/-- The optional `items` field of a sidebar entry. -/
def NavNode.items : NavNode → Option (List NavNode)
  | .mk _ _ i => i

/-- The `sidebar` array of `astro.config.mjs` (lines 17–50), transcribed
record for record: four groups, each holding leaf entries with a label and a
slug.  Leaves carry no `items` field and groups carry no `slug` field. -/
def sidebar : List NavNode :=
  [ .mk "Getting Started" none (some
      [ .mk "Get Started" (some "guides/getting-started") none,
        .mk "Ship in 5 Minutes" (some "guides/ship-in-5-minutes") none ]),
    .mk "Core Features" none (some
      [ .mk "Authentication" (some "guides/authentication") none,
        .mk "Database" (some "guides/database") none,
        .mk "Payments" (some "guides/payments") none,
        .mk "Email Integration" (some "guides/emails") none,
        .mk "SEO & Marketing" (some "guides/seo") none,
        .mk "Deployment" (some "guides/deployment") none ]),
    .mk "Support & Quality" none (some
      [ .mk "Customer Support" (some "guides/customer-support") none,
        .mk "Error Handling" (some "guides/error-handling") none ]),
    .mk "Reference" none (some
      [ .mk "Components" (some "reference/components") none,
        .mk "API Reference" (some "reference/api") none ]) ]

mutual

/-- All nodes of a sidebar entry's subtree, the entry itself included, in
declaration order. -/
def NavNode.allNodes : NavNode → List NavNode
  | .mk l s none => [.mk l s none]
  | .mk l s (some its) => .mk l s (some its) :: allNodesList its

/-- All nodes of the subtrees of a list of sidebar entries. -/
def allNodesList : List NavNode → List NavNode
  | [] => []
  | n :: ns => n.allNodes ++ allNodesList ns

end

mutual

/-- The `slug` values of the leaf entries of a sidebar entry's subtree, in
declaration order. -/
def NavNode.slugs : NavNode → List String
  | .mk _ s none => (match s with | some sl => [sl] | none => [])
  | .mk _ s (some its) =>
      (match s with | some sl => [sl] | none => []) ++ slugsList its

/-- The `slug` values of the leaves of a list of sidebar entries. -/
def slugsList : List NavNode → List String
  | [] => []
  | n :: ns => n.slugs ++ slugsList ns

end

example : slugsList sidebar =
    [ "guides/getting-started", "guides/ship-in-5-minutes",
      "guides/authentication", "guides/database", "guides/payments",
      "guides/emails", "guides/seo", "guides/deployment",
      "guides/customer-support", "guides/error-handling",
      "reference/components", "reference/api" ] := by decide

example : (allNodesList sidebar).length = 16 := by decide

/-- A content document of the documentation content tree: its file path
relative to `src/content/docs/` and its YAML front-matter, a sequence of
key/value pairs. -/
structure ContentDoc : Type where
  path : String
  frontmatter : List (String × String)
deriving DecidableEq

/-- The value of the `title` front-matter key, when present. -/
def ContentDoc.title (d : ContentDoc) : Option String :=
  d.frontmatter.lookup "title"

/-- The value of the `description` front-matter key, when present. -/
def ContentDoc.description (d : ContentDoc) : Option String :=
  d.frontmatter.lookup "description"

/-- Whether the character sequence `suf` is a suffix of `p`. -/
def charSuffix (suf p : List Char) : Bool :=
  p.drop (p.length - suf.length) = suf

/-- The route of a content file: its path relative to the content tree with
the `.md` / `.mdx` extension removed (README: "Each file is exposed as a route
based on its file name"). -/
def routeOf (p : String) : String :=
  if charSuffix ".mdx".data p.data then ⟨p.data.take (p.data.length - 4)⟩
  else if charSuffix ".md".data p.data then ⟨p.data.take (p.data.length - 3)⟩
  else p

/-- The route assigned to a content document, determined by its file path. -/
def ContentDoc.route (d : ContentDoc) : String :=
  routeOf d.path

/-- The content documents under `src/content/docs/`, transcribed from the
repository: the file paths follow the documentation-structure listing of the
README together with `guides/dark-mode.md`, which is present in the tree, and
each document's front-matter is copied from the `---`-delimited YAML block
heading its file. -/
def contentDocs : List ContentDoc :=
  [ ⟨"guides/getting-started.mdx",
      [("title", "Get Started"),
       ("description", "Get your LaunchKit project up and running in minutes.")]⟩,
    ⟨"guides/ship-in-5-minutes.md",
      [("title", "Ship in 5 Minutes"),
       ("description", "Get your startup in front of customers in 5 minutes.")]⟩,
    ⟨"guides/authentication.md",
      [("title", "User Authentication"),
       ("description", "Set up user authentication with Supabase Auth.")]⟩,
    ⟨"guides/database.mdx",
      [("title", "Database"),
       ("description", "Set up and manage your PostgreSQL database with Supabase.")]⟩,
    ⟨"guides/payments.md",
      [("title", "Payments"),
       ("description", "Set up Stripe payments and subscriptions in LaunchKit.")]⟩,
    ⟨"guides/emails.mdx",
      [("title", "Email Integration"),
       ("description",
        "Send transactional emails and manage email marketing with LaunchKit using Resend")]⟩,
    ⟨"guides/seo.md",
      [("title", "SEO & Marketing"),
       ("description",
        "Optimize your LaunchKit app for search engines and content marketing")]⟩,
    ⟨"guides/deployment.mdx",
      [("title", "Deployment"),
       ("description", "Deploy your LaunchKit app to production.")]⟩,
    ⟨"guides/customer-support.md",
      [("title", "Customer Support"),
       ("description",
        "Set up customer support with chat integration and help systems")]⟩,
    ⟨"guides/error-handling.md",
      [("title", "Error Handling"),
       ("description", "Graceful error handling and user experience in LaunchKit")]⟩,
    ⟨"guides/dark-mode.md",
      [("title", "Dark Mode Implementation"),
       ("description",
        "Complete guide to implementing dark mode with next-themes and shadcn/ui components.")]⟩,
    ⟨"reference/components.md",
      [("title", "Components"),
       ("description", "Pre-built components for your LaunchKit application.")]⟩,
    ⟨"reference/api.md",
      [("title", "API Reference"),
       ("description", "API endpoints and utilities for LaunchKit.")]⟩ ]

/-- The routes of all content documents. -/
def contentRoutes : List String :=
  contentDocs.map ContentDoc.route

example : contentRoutes =
    [ "guides/getting-started", "guides/ship-in-5-minutes",
      "guides/authentication", "guides/database", "guides/payments",
      "guides/emails", "guides/seo", "guides/deployment",
      "guides/customer-support", "guides/error-handling", "guides/dark-mode",
      "reference/components", "reference/api" ] := by decide

/-- A row of the README's Development Commands table (lines 44–51): the
command and its documented action. -/
structure CommandRow : Type where
  command : String
  action : String
deriving DecidableEq

/-- The Development Commands table of the README, transcribed row for row. -/
def developmentCommands : List CommandRow :=
  [ ⟨"bun install", "Installs dependencies"⟩,
    ⟨"bun dev", "Starts local dev server at localhost:4321"⟩,
    ⟨"bun build", "Build your production site to ./dist/"⟩,
    ⟨"bun preview", "Preview your build locally, before deploying"⟩,
    ⟨"bun astro ...", "Run CLI commands like astro add, astro check"⟩,
    ⟨"bun astro -- --help", "Get help using the Astro CLI"⟩ ]

/-- Whether the character sequence `pre` begins the sequence `p`. -/
def charPrefixOf (pre p : List Char) : Bool :=
  p.take pre.length = pre

/-- The children of a sidebar entry: its `items` list when present, otherwise
the empty list. -/
def NavNode.children (n : NavNode) : List NavNode :=
  n.items.getD []

/-- The labels of the slug-carrying (leaf) entries of the sidebar tree. -/
def leafLabels : List String :=
  ((allNodesList sidebar).filter (fun n => n.slug.isSome)).map NavNode.label

/-- The labels of the `items`-carrying (group) entries of the sidebar tree. -/
def groupLabels : List String :=
  ((allNodesList sidebar).filter (fun n => n.items.isSome)).map NavNode.label

/-- A plain nested value: a string, an ordered sequence, or a record given as
an ordered sequence of named fields.  This is the target structure the
navigation tree is claimed to map to losslessly. -/
inductive Val : Type where
  | str : String → Val
  | arr : List Val → Val
  | obj : List (String × Val) → Val

mutual

/-- Encode a sidebar entry as a plain record: a `label` field, then a `slug`
field when present, then an `items` field when present. -/
def NavNode.encode : NavNode → Val
  | .mk l s none =>
      .obj ([("label", .str l)] ++
        (match s with | some sl => [("slug", .str sl)] | none => []))
  | .mk l s (some its) =>
      .obj ([("label", .str l)] ++
        (match s with | some sl => [("slug", .str sl)] | none => []) ++
        [("items", .arr (encodeList its))])

/-- Encode a list of sidebar entries in order. -/
def encodeList : List NavNode → List Val
  | [] => []
  | n :: ns => n.encode :: encodeList ns

end

mutual

/-- Decode a plain record back into a sidebar entry. -/
def decodeNode : Val → Option NavNode
  | .obj [("label", .str l)] => some (.mk l none none)
  | .obj [("label", .str l), ("slug", .str s)] => some (.mk l (some s) none)
  | .obj [("label", .str l), ("items", .arr vs)] =>
      (decodeList vs).map (fun ns => .mk l none (some ns))
  | .obj [("label", .str l), ("slug", .str s), ("items", .arr vs)] =>
      (decodeList vs).map (fun ns => .mk l (some s) (some ns))
  | _ => none

/-- Decode a list of plain records back into sidebar entries. -/
def decodeList : List Val → Option (List NavNode)
  | [] => some []
  | v :: vs =>
      match decodeNode v, decodeList vs with
      | some n, some ns => some (n :: ns)
      | _, _ => none

end

/-- A static page emitted by the build: its route and the content document it
renders. -/
structure Page : Type where
  route : String
  doc : ContentDoc
deriving DecidableEq

/-- The author-supplied data of the repository: the navigation configuration
and the content documents. -/
structure SiteState : Type where
  config : List NavNode
  docs : List ContentDoc

/-- Modelled from the spec: the only operation performed over the repository's
data is the build-time rendering by the external static-site framework (absent
from this repository), which reads the navigation configuration and the
content documents and emits one static page per document ("authored manually,
rendered at build time into a static page, never mutated at runtime").  It is
a pure read: the state is returned unchanged alongside the emitted pages. -/
def buildSite (s : SiteState) : SiteState × List Page :=
  (s, s.docs.map (fun d => ⟨d.route, d⟩))

/-- The repository's concrete state: the declared sidebar and content tree. -/
def repoState : SiteState :=
  ⟨sidebar, contentDocs⟩

example : (NavNode.mk "Get Started" (some "guides/getting-started") none) ∈
    allNodesList sidebar := by decide

/-- Claim C1: every leaf entry of the sidebar declared in `astro.config.mjs`
carries one of the twelve declared slugs, and each of these slugs resolves to
an existing content document: it occurs among the routes of the content
tree. -/
theorem nav_slugs_resolve :
    slugsList sidebar =
      [ "guides/getting-started", "guides/ship-in-5-minutes",
        "guides/authentication", "guides/database", "guides/payments",
        "guides/emails", "guides/seo", "guides/deployment",
        "guides/customer-support", "guides/error-handling",
        "reference/components", "reference/api" ] ∧
    ∀ s ∈ slugsList sidebar, s ∈ contentRoutes := by decide

/-- Claim C2: every content document's front-matter has a `title` whose value
is a non-empty string and a `description` whose value is a non-empty
string. -/
theorem frontmatter_nonempty :
    ∀ d ∈ contentDocs,
      d.title.getD "" ≠ "" ∧ d.description.getD "" ≠ "" := by decide

/-- Witness for claim C2 at the getting-started document. -/
theorem frontmatter_nonempty_witness :
    (ContentDoc.mk "guides/getting-started.mdx"
        [("title", "Get Started"),
         ("description", "Get your LaunchKit project up and running in minutes.")])
        ∈ contentDocs ∧
      ((ContentDoc.mk "guides/getting-started.mdx"
        [("title", "Get Started"),
         ("description",
          "Get your LaunchKit project up and running in minutes.")]).title.getD ""
          ≠ "" ∧
       (ContentDoc.mk "guides/getting-started.mdx"
        [("title", "Get Started"),
         ("description",
          "Get your LaunchKit project up and running in minutes.")]).description.getD ""
          ≠ "") :=
  ⟨by decide, frontmatter_nonempty _ (by decide)⟩

/-- Claim C3: every node of the sidebar tree has exactly one of two shapes: a
leaf carrying a `slug` and no `items`, or a group carrying an `items` list and
no `slug`; children are held in an ordered list. -/
theorem nav_node_shape :
    ∀ n ∈ allNodesList sidebar,
      (n.slug.isSome ∧ n.items = none) ∨ (n.slug = none ∧ n.items.isSome) := by
  decide

/-- Witness for claim C3 at the first leaf of the tree. -/
theorem nav_node_shape_witness :
    (NavNode.mk "Get Started" (some "guides/getting-started") none)
        ∈ allNodesList sidebar ∧
      (((NavNode.mk "Get Started" (some "guides/getting-started") none).slug.isSome ∧
          (NavNode.mk "Get Started" (some "guides/getting-started") none).items = none) ∨
        ((NavNode.mk "Get Started" (some "guides/getting-started") none).slug = none ∧
          (NavNode.mk "Get Started" (some "guides/getting-started") none).items.isSome)) :=
  ⟨by decide, nav_node_shape _ (by decide)⟩

/-- Claim C4: every content document sits under the documentation content tree
(inside `guides/` or `reference/`), is a Markdown (`.md`) or MDX (`.mdx`)
file, carries the front-matter keys `title` and `description`, and its route
is its path relative to the content tree without the extension. -/
theorem content_doc_format :
    ∀ d ∈ contentDocs,
      (charPrefixOf "guides/".data d.path.data ∨
        charPrefixOf "reference/".data d.path.data) ∧
      (charSuffix ".md".data d.path.data ∨ charSuffix ".mdx".data d.path.data) ∧
      "title" ∈ d.frontmatter.map Prod.fst ∧
      "description" ∈ d.frontmatter.map Prod.fst ∧
      d.route = routeOf d.path := by decide

/-- Witness for claim C4 at the API-reference document. -/
theorem content_doc_format_witness :
    (ContentDoc.mk "reference/api.md"
        [("title", "API Reference"),
         ("description", "API endpoints and utilities for LaunchKit.")])
        ∈ contentDocs ∧
      ((charPrefixOf "guides/".data
          (ContentDoc.mk "reference/api.md"
            [("title", "API Reference"),
             ("description", "API endpoints and utilities for LaunchKit.")]).path.data ∨
        charPrefixOf "reference/".data
          (ContentDoc.mk "reference/api.md"
            [("title", "API Reference"),
             ("description", "API endpoints and utilities for LaunchKit.")]).path.data) ∧
       (charSuffix ".md".data
          (ContentDoc.mk "reference/api.md"
            [("title", "API Reference"),
             ("description", "API endpoints and utilities for LaunchKit.")]).path.data ∨
        charSuffix ".mdx".data
          (ContentDoc.mk "reference/api.md"
            [("title", "API Reference"),
             ("description", "API endpoints and utilities for LaunchKit.")]).path.data) ∧
       "title" ∈
          (ContentDoc.mk "reference/api.md"
            [("title", "API Reference"),
             ("description",
              "API endpoints and utilities for LaunchKit.")]).frontmatter.map Prod.fst ∧
       "description" ∈
          (ContentDoc.mk "reference/api.md"
            [("title", "API Reference"),
             ("description",
              "API endpoints and utilities for LaunchKit.")]).frontmatter.map Prod.fst ∧
       (ContentDoc.mk "reference/api.md"
          [("title", "API Reference"),
           ("description", "API endpoints and utilities for LaunchKit.")]).route =
        routeOf
          (ContentDoc.mk "reference/api.md"
            [("title", "API Reference"),
             ("description", "API endpoints and utilities for LaunchKit.")]).path) :=
  ⟨by decide, content_doc_format _ (by decide)⟩

/-- Claim C5: the sidebar tree maps losslessly to a plain nested
ordered-sequence-of-records structure: encoding the declared sidebar into
nested sequences of records and decoding back yields the original tree. -/
theorem sidebar_roundtrip : decodeList (encodeList sidebar) = some sidebar := by
  decide

/-- Claim C6: the build-time rendering (the only operation performed over the
repository's data) leaves the navigation configuration and every content
document unchanged: on the repository's state it preserves the declared
sidebar and content tree, and on any state it is a pure read. -/
theorem build_preserves_data :
    (buildSite repoState).1.config = sidebar ∧
    (buildSite repoState).1.docs = contentDocs ∧
    ∀ s : SiteState, (buildSite s).1 = s :=
  ⟨rfl, rfl, fun _ => rfl⟩

/-- Counterexample to claim C7 as stated: the README's Development Commands
table documents six commands, not four; the generic Astro CLI passthrough row
is a member of the table beyond the four named actions. -/
theorem dev_commands_not_four :
    (CommandRow.mk "bun astro ..." "Run CLI commands like astro add, astro check")
        ∈ developmentCommands ∧
      developmentCommands.length = 6 ∧ ¬ developmentCommands.length = 4 := by
  decide

/-- Claim C7 (amended): the documented command surface is six thin
passthroughs to the external toolchain — the four actions (install
dependencies, dev server, build, preview) plus generic Astro CLI invocation
and Astro CLI help — every one of them invoking the external `bun` runtime,
with no command logic of the repository's own. -/
theorem dev_commands_passthrough :
    developmentCommands.map CommandRow.command =
      [ "bun install", "bun dev", "bun build", "bun preview",
        "bun astro ...", "bun astro -- --help" ] ∧
    ∀ r ∈ developmentCommands, charPrefixOf "bun ".data r.command.data := by
  decide

/-- Claim C8: the sidebar tree is exactly two levels deep: every top-level
entry is a group (no `slug`, a non-empty `items` list) and every child of
every group is a leaf (a `slug`, no `items`). -/
theorem sidebar_two_levels :
    ∀ n ∈ sidebar,
      n.slug = none ∧ n.items.isSome ∧ n.children ≠ [] ∧
        ∀ c ∈ n.children, c.slug.isSome ∧ c.items = none := by decide

/-- Witness for claim C8 at the Reference group. -/
theorem sidebar_two_levels_witness :
    (NavNode.mk "Reference" none (some
        [ NavNode.mk "Components" (some "reference/components") none,
          NavNode.mk "API Reference" (some "reference/api") none ])) ∈ sidebar ∧
      ((NavNode.mk "Reference" none (some
          [ NavNode.mk "Components" (some "reference/components") none,
            NavNode.mk "API Reference" (some "reference/api") none ])).slug = none ∧
       (NavNode.mk "Reference" none (some
          [ NavNode.mk "Components" (some "reference/components") none,
            NavNode.mk "API Reference" (some "reference/api") none ])).items.isSome ∧
       (NavNode.mk "Reference" none (some
          [ NavNode.mk "Components" (some "reference/components") none,
            NavNode.mk "API Reference" (some "reference/api") none ])).children ≠ [] ∧
       ∀ c ∈ (NavNode.mk "Reference" none (some
          [ NavNode.mk "Components" (some "reference/components") none,
            NavNode.mk "API Reference" (some "reference/api") none ])).children,
         c.slug.isSome ∧ c.items = none) :=
  ⟨by decide, sidebar_two_levels _ (by decide)⟩

/-- Claim C9: the twelve leaf slugs are pairwise distinct, the twelve leaf
labels are pairwise distinct, and the four group labels are pairwise
distinct. -/
theorem sidebar_names_distinct :
    (slugsList sidebar).length = 12 ∧ (slugsList sidebar).Nodup ∧
    leafLabels.length = 12 ∧ leafLabels.Nodup ∧
    groupLabels.length = 4 ∧ groupLabels.Nodup := by decide

/-- Claim C10: the content document at route `guides/dark-mode` exists with
non-empty front-matter, yet its route occurs among no sidebar leaf's `slug`:
navigation coverage of the content tree is not exhaustive. -/
theorem dark_mode_unreferenced :
    "guides/dark-mode" ∈ contentRoutes ∧
    (∃ d ∈ contentDocs, d.route = "guides/dark-mode" ∧
        d.title.getD "" ≠ "" ∧ d.description.getD "" ≠ "") ∧
    "guides/dark-mode" ∉ slugsList sidebar := by decide

end LaunchKitDocs
